import Mathlib

/-!
Shallow embedding of the percentile / classification core of the
bga-payroll application (`payroll/models.py`).

Database rows are Lean structures; SQL inner joins become list binds over
the row lists; window `percent_rank()` becomes an explicit counting
function; Python code paths that raise become `Option`-valued functions
returning `none`.
-/

/-- Row of `payroll_employer`: `parent_id` null means the employer is a
unit, non-null a department; `taxonomy_id` (units) and `universe_id`
(departments) are the classification axes. -/
structure EmployerRow where
  id : Nat
  parent_id : Option Nat
  taxonomy_id : Option Nat
  universe_id : Option Nat
deriving DecidableEq, Repr

/-- Row of `payroll_position`. -/
structure PositionRow where
  id : Nat
  employer_id : Nat
deriving DecidableEq, Repr

/-- Row of `payroll_job`. -/
structure JobRow where
  id : Nat
  person_id : Nat
  position_id : Nat
deriving DecidableEq, Repr

/-- Row of `payroll_salary`; `amount` and `extra_pay` are nullable
decimal columns (modelled as `Option Int`); `vintage_id` points at the
upload batch. -/
structure SalaryRow where
  id : Nat
  job_id : Nat
  amount : Option Int
  extra_pay : Option Int
  vintage_id : Nat
deriving DecidableEq, Repr

/-- The joined `data_import_upload` / `data_import_standardizedfile`
tables, reduced to the pairs (upload id, reporting_year) the percentile
queries actually read. -/
structure DB where
  employers : List EmployerRow
  positions : List PositionRow
  jobs : List JobRow
  salaries : List SalaryRow
  files : List (Nat × Nat)
deriving Repr

/-- `COALESCE(amount, 0) + COALESCE(extra_pay, 0)`, the total pay used
throughout the percentile queries. -/
def totalPay (s : SalaryRow) : Int :=
  s.amount.getD 0 + s.extra_pay.getD 0

/-- SQL `percent_rank() OVER (ORDER BY total ASC)` for a row whose order
key is `v`, over a window whose order keys are `pays`: rows tied on the
key share the rank of the first of them, so the value is
(number of rows with key strictly below `v`) / (window size - 1).
PostgreSQL returns 0 for a single-row window; in Lean division by the
zero denominator also yields 0, so no special case is needed. -/
def percent_rank (pays : List Int) (v : Int) : ℚ :=
  ((pays.countP fun x => decide (x < v) : Nat) : ℚ) / (((pays.length : Nat) : ℚ) - 1)

/-- Rows of the own-employer comparison population
(`Salary.employer_percentile`): salaries joined through job, position and
employer, restricted to the employer itself or its direct children, in
the requested reporting year. Each row is (person_id, total pay). -/
def employerPopulation (db : DB) (empId year : Nat) : List (Nat × Int) :=
  db.jobs.flatMap fun j =>
    db.salaries.flatMap fun s =>
      db.positions.flatMap fun p =>
        db.employers.flatMap fun e =>
          db.files.filterMap fun f =>
            if s.job_id = j.id ∧ j.position_id = p.id ∧ p.employer_id = e.id ∧
                (e.id = empId ∨ e.parent_id = some empId) ∧
                f.1 = s.vintage_id ∧ f.2 = year
            then some (j.person_id, totalPay s) else none

/-- The `SELECT percentile FROM salary_percentiles WHERE person_id = {id}`
step followed by `cursor.fetchone()`: the first population row belonging
to the person, mapped to its percent_rank times 100. `none` models the
`TypeError` the Python raises on `result[0]` when no row matches. -/
def rankIn (rows : List (Nat × Int)) (pid : Nat) : Option ℚ :=
  ((rows.filter fun r => decide (r.1 = pid)).head?).map
    fun r => percent_rank (rows.map Prod.snd) r.2 * 100

/-- `Salary.employer_percentile`, parameterised by the already-resolved
employer id, person id and reporting year that the Python interpolates
into its SQL. -/
def employer_percentile (db : DB) (empId pid year : Nat) : Option ℚ :=
  rankIn (employerPopulation db empId year) pid

/-- Concrete database realising the spec's worked example: one unit
(employer 1) with four employees whose total pays are
30000, 45000, 45000, 90000 in reporting year 2017. -/
def exDB : DB :=
  { employers := [⟨1, none, some 7, none⟩]
  , positions := [⟨21, 1⟩, ⟨22, 1⟩, ⟨23, 1⟩, ⟨24, 1⟩]
  , jobs := [⟨31, 11, 21⟩, ⟨32, 12, 22⟩, ⟨33, 13, 23⟩, ⟨34, 14, 24⟩]
  , salaries :=
      [⟨41, 31, some 30000, none, 5⟩, ⟨42, 32, some 45000, none, 5⟩,
       ⟨43, 33, some 45000, none, 5⟩, ⟨44, 34, some 90000, none, 5⟩]
  , files := [(5, 2017)] }

/-- Left-to-right scan of Python `min(..., key=k)` with current best `b`:
a later element replaces the best only on a strictly smaller key, so on
key ties the earlier element wins. -/
def pyMinFrom (k : Int → Int) (b : Int) : List Int → Int
  | [] => b
  | x :: xs => if k x < k b then pyMinFrom k x xs else pyMinFrom k b xs

/-- Python `min(xs, key=k)`: the first element attaining the minimal
key. `none` on an empty list (Python raises `ValueError` there, but
`get_population` guards against it). -/
def pyMinBy (k : Int → Int) : List Int → Option Int
  | [] => none
  | x :: xs => some (pyMinFrom k x xs)

/-- `Employer.get_population`: readings are (data_year, population)
pairs. The guard `if self.population.all():` yields `None` on no
readings; otherwise the code takes
`min(population_years, key=lambda x: target_year - x)` — note the key is
the signed difference, not its absolute value — and returns the
population of the reading with that data year. -/
def get_population (readings : List (Int × Int)) (targetYear : Int) : Option Int :=
  match pyMinBy (fun x => targetYear - x) (readings.map Prod.fst) with
  | none => none
  | some closest => (readings.find? fun r => decide (r.1 = closest)).map Prod.snd

/-- Row of `payroll_employertaxonomy`. -/
structure EmployerTaxonomy where
  entity_type : String
  chicago : Bool
  cook_or_collar : Bool
deriving DecidableEq, Repr

/-- `EmployerTaxonomy.is_special`: either special-status flag. -/
def is_special (t : EmployerTaxonomy) : Bool :=
  t.chicago || t.cook_or_collar

/-- The `class_lookup` table of `Employer.size_class`, keyed by
(entity_type, is_special) with values (lower, upper) population bounds
in thousands; `(-1, -1)` is the always-large Chicago sentinel. -/
def class_lookup : String × Bool → Option (Int × Int)
  | ("Municipal", true) => some (-1, -1)
  | ("Municipal", false) => some (10, 50)
  | ("County", true) => some (500, 1000)
  | ("County", false) => some (25, 75)
  | ("Township", true) => some (25, 100)
  | ("Township", false) => some (10, 50)
  | _ => none

/-- The three sizes `Employer.size_class` can produce. -/
inductive SizeClass
  | Small
  | Medium
  | Large
deriving DecidableEq, Repr

/-- Position of a size class in the order Small < Medium < Large. -/
def SizeClass.rank : SizeClass → Nat
  | .Small => 0
  | .Medium => 1
  | .Large => 2

/-- `Employer.size_class`, as a function of the employer's taxonomy, its
population readings and the target year `get_population` resolves
against. Mirrors the Python control flow: no taxonomy falls into the
`else: return None` branch; a missing `class_lookup` entry or a falsy
population (`None` or `0`) falls off the end of the function, which is
also `None`. -/
def size_class (tax : Option EmployerTaxonomy) (readings : List (Int × Int))
    (targetYear : Int) : Option SizeClass :=
  match tax with
  | none => none
  | some t =>
    match class_lookup (t.entity_type, is_special t) with
    | none => none
    | some (lo, hi) =>
      match get_population readings targetYear with
      | none => none
      | some p =>
        if p = 0 then none
        else if p ≥ hi * 1000 then some .Large
        else if p ≥ lo * 1000 then some .Medium
        else some .Small

/-- `Employer.is_department`: true iff `parent_id` is set. -/
def is_department (e : EmployerRow) : Bool :=
  e.parent_id.isSome

/-- `Employer.is_unclassified`: a department without a universe, or a
unit without a taxonomy. -/
def is_unclassified (e : EmployerRow) : Bool :=
  (is_department e && e.universe_id.isNone) || (!is_department e && e.taxonomy_id.isNone)

/-- Rows of the `_like_unit_percentile` comparison population: the
`employer_parent_lookup` CTE maps every employer row to
`COALESCE(parent_id, id)`, and the percentile window keeps the salaries
whose position's employer maps, under that key, to an employer with
taxonomy `taxId`, in the requested reporting year. -/
def likeUnitPopulation (db : DB) (taxId year : Nat) : List (Nat × Int) :=
  db.jobs.flatMap fun j =>
    db.salaries.flatMap fun s =>
      db.positions.flatMap fun p =>
        db.employers.flatMap fun e0 =>
          db.employers.flatMap fun e1 =>
            db.files.filterMap fun f =>
              if s.job_id = j.id ∧ j.position_id = p.id ∧ p.employer_id = e0.id ∧
                  e0.parent_id.getD e0.id = e1.id ∧ e1.taxonomy_id = some taxId ∧
                  f.1 = s.vintage_id ∧ f.2 = year
              then some (j.person_id, totalPay s) else none

/-- Rows of the `_like_department_percentile` comparison population: the
`taxonomy_members` CTE selects the departments whose parent unit has
taxonomy `taxId`; the window keeps the salaries at those departments
whose universe is `universeId`, in the requested reporting year. -/
def likeDepartmentPopulation (db : DB) (taxId universeId year : Nat) : List (Nat × Int) :=
  db.jobs.flatMap fun j =>
    db.salaries.flatMap fun s =>
      db.positions.flatMap fun p =>
        db.employers.flatMap fun unit =>
          db.employers.flatMap fun dept =>
            db.files.filterMap fun f =>
              if s.job_id = j.id ∧ j.position_id = p.id ∧
                  dept.parent_id = some unit.id ∧ unit.taxonomy_id = some taxId ∧
                  p.employer_id = dept.id ∧ dept.universe_id = some universeId ∧
                  f.1 = s.vintage_id ∧ f.2 = year
              then some (j.person_id, totalPay s) else none

/-- FK resolution `Employer.objects.get(id=i)` (ids are unique in the
real database, so the first match is the row). -/
def findEmployer (db : DB) (i : Nat) : Option EmployerRow :=
  db.employers.find? fun e => decide (e.id = i)

/-- `VintagedModel.reporting_year`: follow the salary's vintage to its
standardized file's reporting year. -/
def salary_reporting_year (db : DB) (s : SalaryRow) : Option Nat :=
  (db.files.find? fun f => decide (f.1 = s.vintage_id)).map Prod.snd

/-- The result type of `Salary.like_employer_percentile`: the string
sentinel `'N/A'` for an unclassified employer, the Python `None`
sentinel for a department whose parent unit is unclassified, or a
percentile value. -/
inductive LikeResult
  | na
  | noData
  | value (q : ℚ)
deriving DecidableEq

/-- `Salary._like_unit_percentile`, given the resolved employer and
person: reads `employer.taxonomy.id`, runs the unit query for the
salary's reporting year, and post-processes `fetchone()` like
`employer_percentile` does. -/
def like_unit_percentile (db : DB) (e : EmployerRow) (pid : Nat) (s : SalaryRow) :
    Option ℚ := do
  let t ← e.taxonomy_id
  let year ← salary_reporting_year db s
  rankIn (likeUnitPopulation db t year) pid

/-- `Salary._like_department_percentile`: returns the Python `None`
sentinel when the parent unit is unclassified, before any query is
built; otherwise reads `employer.parent.taxonomy.id` and
`employer.universe.id` and runs the department query. The outer `none`
models an exception (unresolvable parent or atrribute access on a null
relation). -/
def like_department_percentile (db : DB) (e : EmployerRow) (pid : Nat) (s : SalaryRow) :
    Option LikeResult := do
  let pr ← e.parent_id
  let pe ← findEmployer db pr
  if is_unclassified pe then
    pure .noData
  else do
    let t ← pe.taxonomy_id
    let u ← e.universe_id
    let year ← salary_reporting_year db s
    let q ← rankIn (likeDepartmentPopulation db t u year) pid
    pure (.value q)

/-- `Salary.like_employer_percentile`: resolve the salary's employer
through job and position, then dispatch on `is_unclassified` and
`is_department`. -/
def like_employer_percentile (db : DB) (s : SalaryRow) : Option LikeResult := do
  let j ← db.jobs.find? fun j => decide (j.id = s.job_id)
  let p ← db.positions.find? fun p => decide (p.id = j.position_id)
  let e ← findEmployer db p.employer_id
  if is_unclassified e then
    pure .na
  else if is_department e then
    like_department_percentile db e j.person_id s
  else
    (like_unit_percentile db e j.person_id s).map .value

/-- `Salary.employer_percentile` as called on a salary row: the Python
interpolates `self.job.position.employer.id`, `self.job.person.id` and
`self.reporting_year` into the query, so the computation factors
through that triple. -/
def employer_percentile_of (db : DB) (s : SalaryRow) : Option ℚ := do
  let j ← db.jobs.find? fun j => decide (j.id = s.job_id)
  let p ← db.positions.find? fun p => decide (p.id = j.position_id)
  let e ← findEmployer db p.employer_id
  let year ← salary_reporting_year db s
  employer_percentile db e.id j.person_id year

/-- Concrete database for the unit peer pool: unit 1 and unit 2 share
taxonomy 7; employer 3 is a department of unit 2 with one salary in
reporting year 2017. -/
def unitPeerDB : DB :=
  { employers := [⟨1, none, some 7, none⟩, ⟨2, none, some 7, none⟩, ⟨3, some 2, none, some 9⟩]
  , positions := [⟨23, 3⟩]
  , jobs := [⟨33, 12, 23⟩]
  , salaries := [⟨43, 33, some 50000, none, 5⟩]
  , files := [(5, 2017)] }

/-- Concrete database for the department peer pool: department 3 of
unit 1 is the subject; department 4 of unit 2 shares universe 9, and
units 1 and 2 share taxonomy 7; department 4 has one salary in
reporting year 2017. -/
def deptPeerDB : DB :=
  { employers := [⟨1, none, some 7, none⟩, ⟨3, some 1, none, some 9⟩,
                  ⟨2, none, some 7, none⟩, ⟨4, some 2, none, some 9⟩]
  , positions := [⟨24, 4⟩]
  , jobs := [⟨34, 13, 24⟩]
  , salaries := [⟨44, 34, some 60000, none, 5⟩]
  , files := [(5, 2017)] }

/-- Database with a single unclassified unit (no taxonomy) employing
person 11. -/
def unclassifiedUnitDB : DB :=
  { employers := [⟨1, none, none, none⟩]
  , positions := [⟨21, 1⟩]
  , jobs := [⟨31, 11, 21⟩]
  , salaries := [⟨41, 31, some 10000, none, 5⟩]
  , files := [(5, 2017)] }

/-- Database with a classified department (universe 9) whose parent
unit 1 is unclassified (no taxonomy). -/
def orphanDeptDB : DB :=
  { employers := [⟨1, none, none, none⟩, ⟨2, some 1, none, some 9⟩]
  , positions := [⟨22, 2⟩]
  , jobs := [⟨32, 12, 22⟩]
  , salaries := [⟨42, 32, some 10000, none, 5⟩]
  , files := [(5, 2017)] }

/-- Empty database: no rows at all. -/
def emptyDB : DB :=
  { employers := [], positions := [], jobs := [], salaries := [], files := [] }

/-- Database in which person 11 holds one job with two salary rows of
different amounts in the same reporting year. -/
def twoSalaryDB : DB :=
  { employers := [⟨1, none, some 7, none⟩]
  , positions := [⟨21, 1⟩]
  , jobs := [⟨31, 11, 21⟩]
  , salaries := [⟨41, 31, some 20000, none, 5⟩, ⟨42, 31, some 80000, none, 5⟩]
  , files := [(5, 2017)] }

/-- Evaluation helper: once the decidable list-level facts (selected row,
count of strictly smaller pays, population size) are known, `rankIn`
reduces to explicit rational arithmetic. -/
lemma rank_eval (rows : List (Nat × Int)) (pid : Nat) (r : Nat × Int) (k n : Nat)
    (h1 : (rows.filter fun x => decide (x.1 = pid)).head? = some r)
    (h2 : (rows.map Prod.snd).countP (fun x => decide (x < r.2)) = k)
    (h3 : rows.length = n) :
    rankIn rows pid = some ((k : ℚ) / ((n : ℚ) - 1) * 100) := by
  unfold rankIn percent_rank
  rw [h1]
  rw [List.countP_map] at h2
  simp [h2, List.length_map, h3]

/-- The scan result is the initial best or one of the scanned elements. -/
lemma pyMinFrom_mem (k : Int → Int) : ∀ (xs : List Int) (b : Int),
    pyMinFrom k b xs = b ∨ pyMinFrom k b xs ∈ xs := by
  intro xs
  induction xs with
  | nil => intro b; exact Or.inl rfl
  | cons x xs ih =>
    intro b
    unfold pyMinFrom
    by_cases h : k x < k b
    · rw [if_pos h]
      rcases ih x with h1 | h1
      · exact Or.inr (by rw [h1]; exact List.mem_cons_self x xs)
      · exact Or.inr (List.mem_cons_of_mem x h1)
    · rw [if_neg h]
      rcases ih b with h1 | h1
      · exact Or.inl h1
      · exact Or.inr (List.mem_cons_of_mem x h1)

/-- A nonempty readings list always yields a population. -/
lemma get_population_isSome (readings : List (Int × Int)) (y : Int)
    (h : readings ≠ []) : ∃ p, get_population readings y = some p := by
  match readings, h with
  | r :: rs, _ =>
    unfold get_population pyMinBy
    rw [List.map_cons]
    have hm : pyMinFrom (fun x => y - x) r.1 (rs.map Prod.fst) = r.1 ∨
        pyMinFrom (fun x => y - x) r.1 (rs.map Prod.fst) ∈ rs.map Prod.fst :=
      pyMinFrom_mem _ _ _
    set m := pyMinFrom (fun x => y - x) r.1 (rs.map Prod.fst) with hmdef
    have hex : ∃ x ∈ r :: rs, x.1 = m := by
      rcases hm with h1 | h1
      · exact ⟨r, List.mem_cons_self r rs, h1.symm⟩
      · obtain ⟨x, hx, hx1⟩ := List.mem_map.mp h1
        exact ⟨x, List.mem_cons_of_mem r hx, hx1⟩
    have : ∃ v, (r :: rs).find? (fun x => decide (x.1 = m)) = some v := by
      obtain ⟨x, hx, hx1⟩ := hex
      have : ((r :: rs).find? (fun x => decide (x.1 = m))).isSome := by
        rw [List.find?_isSome]
        exact ⟨x, hx, by simp [hx1]⟩
      exact Option.isSome_iff_exists.mp this
    obtain ⟨v, hv⟩ := this
    exact ⟨v.2, by simp [hv]⟩

/-- C1 counterexample: over the comparison population with total pays
[30000, 45000, 45000, 90000], `percent_rank` (the window function
`employer_percentile` uses) gives a salary of 45000 the percentile
(1/3)*100 ≈ 33.3, not the (2/3)*100 ≈ 66.7 the claim's inclusive
cumulative formula predicts. -/
theorem c1_tie_percentile_counterexample :
    employer_percentile exDB 1 12 2017 = some (100 / 3) ∧
    (100 / 3 : ℚ) ≠ (2 / 3) * 100 := by
  constructor
  · have h : employer_percentile exDB 1 12 2017 = some ((1 : ℚ) / ((4 : ℚ) - 1) * 100) := by
      unfold employer_percentile
      have hpop : employerPopulation exDB 1 2017 =
          [(11, 30000), (12, 45000), (13, 45000), (14, 90000)] := by decide
      rw [hpop]
      exact rank_eval _ 12 (12, 45000) 1 4 (by decide) (by decide) (by decide)
    rw [h]; norm_num
  · norm_num

/-- C1 (amended): for the comparison population [30000, 45000, 45000,
90000] in one reporting year, the salary with total pay 90000 has
percentile 100 and each salary with total pay 45000 receives the
identical percentile (1/3)*100 ≈ 33.3: the rank computation is the
exclusive percent-rank form
(count of rows with total_pay strictly below this value) /
(population size - 1). -/
theorem c1_tie_percentile_amended :
    employer_percentile exDB 1 14 2017 = some 100 ∧
    employer_percentile exDB 1 12 2017 = some ((1 / 3 : ℚ) * 100) ∧
    employer_percentile exDB 1 13 2017 = some ((1 / 3 : ℚ) * 100) := by
  have hpop : employerPopulation exDB 1 2017 =
      [(11, 30000), (12, 45000), (13, 45000), (14, 90000)] := by decide
  refine ⟨?_, ?_, ?_⟩
  · have h : employer_percentile exDB 1 14 2017 = some ((3 : ℚ) / ((4 : ℚ) - 1) * 100) := by
      unfold employer_percentile
      rw [hpop]
      exact rank_eval _ 14 (14, 90000) 3 4 (by decide) (by decide) (by decide)
    rw [h]; norm_num
  · have h : employer_percentile exDB 1 12 2017 = some ((1 : ℚ) / ((4 : ℚ) - 1) * 100) := by
      unfold employer_percentile
      rw [hpop]
      exact rank_eval _ 12 (12, 45000) 1 4 (by decide) (by decide) (by decide)
    rw [h]; norm_num
  · have h : employer_percentile exDB 1 13 2017 = some ((1 : ℚ) / ((4 : ℚ) - 1) * 100) := by
      unfold employer_percentile
      rw [hpop]
      exact rank_eval _ 13 (13, 45000) 1 4 (by decide) (by decide) (by decide)
    rw [h]; norm_num

/-- C2: `get_population` does not return the reading nearest to the
target year. With readings for data years 2010 and 2020 and target year
2011, the 2010 reading is strictly nearer (distance 1 versus 9), yet the
code returns the 2020 reading's population, because its key
`target_year - x` is minimised by the largest data year, not by the
smallest absolute distance its own docstring ("the population closest
to the target year") promises. -/
theorem c2_get_population_bug :
    get_population [(2010, 100), (2020, 200)] 2011 = some 200 ∧
    (2011 - 2010 : Int).natAbs < (2011 - 2020 : Int).natAbs := by
  constructor
  · decide
  · decide

/-- C6 counterexample: a Chicago (Municipal, special) employer with a
recorded population of 0 gets `size_class = None`, not Large: Python's
`if population:` treats the population 0 as missing. -/
theorem c6_size_class_counterexample :
    size_class (some ⟨"Municipal", true, false⟩) [(2015, 0)] 2015 ≠ some SizeClass.Large ∧
    size_class (some ⟨"Municipal", true, false⟩) [(2015, 0)] 2015 = none := by
  constructor
  · decide
  · decide

/-- C6 (amended): `size_class` is None when the employer has no
taxonomy, no population reading, or a resolved population equal to 0;
otherwise, with bounds looked up by (entity_type, is_special) from the
fixed table, it is Large when population >= upper*1000, Medium when
population >= lower*1000, else Small; and a Chicago (Municipal,
special) employer is classified Large whenever its resolved population
is nonzero and at least -1000 (in particular for any positive
population). -/
theorem c6_size_class_amended :
    (∀ (readings : List (Int × Int)) (y : Int), size_class none readings y = none) ∧
    (∀ (t : EmployerTaxonomy) (readings : List (Int × Int)) (y : Int),
      get_population readings y = none → size_class (some t) readings y = none) ∧
    (∀ (t : EmployerTaxonomy) (readings : List (Int × Int)) (y : Int),
      get_population readings y = some 0 → size_class (some t) readings y = none) ∧
    (∀ (t : EmployerTaxonomy) (lo hi : Int) (readings : List (Int × Int)) (y p : Int),
      class_lookup (t.entity_type, is_special t) = some (lo, hi) →
      get_population readings y = some p → p ≠ 0 →
      size_class (some t) readings y =
        some (if p ≥ hi * 1000 then SizeClass.Large
          else if p ≥ lo * 1000 then SizeClass.Medium else SizeClass.Small)) ∧
    (∀ (t : EmployerTaxonomy) (readings : List (Int × Int)) (y p : Int),
      t.entity_type = "Municipal" → is_special t = true →
      get_population readings y = some p → p ≠ 0 → p ≥ -1000 →
      size_class (some t) readings y = some SizeClass.Large) := by
  refine ⟨?_, ?_, ?_, ?_, ?_⟩
  · intro readings y; rfl
  · intro t readings y h
    cases hcl : class_lookup (t.entity_type, is_special t) with
    | none => simp [size_class, hcl]
    | some b => obtain ⟨lo, hi⟩ := b; simp [size_class, hcl, h]
  · intro t readings y h
    cases hcl : class_lookup (t.entity_type, is_special t) with
    | none => simp [size_class, hcl]
    | some b => obtain ⟨lo, hi⟩ := b; simp [size_class, hcl, h]
  · intro t lo hi readings y p hcl hp hp0
    simp only [size_class, hcl, hp]
    rw [if_neg hp0]
    split_ifs <;> rfl
  · intro t readings y p ht hsp hp hp0 hge
    have hcl : class_lookup (t.entity_type, is_special t) = some (-1, -1) := by
      rw [ht, hsp]; decide
    simp only [size_class, hcl, hp]
    rw [if_neg hp0, if_pos (by omega : p ≥ -1 * 1000)]

/-- C6 witness: the amended classification evaluated on concrete
employers — a non-special municipality of 30000 is Medium, a Chicago
employer with a small positive population is Large. -/
theorem c6_size_class_amended_witness :
    size_class (some ⟨"Municipal", false, false⟩) [(2015, 30000)] 2015 =
      some SizeClass.Medium ∧
    size_class (some ⟨"Municipal", true, false⟩) [(2015, 5)] 2015 =
      some SizeClass.Large := by
  constructor
  · have h := c6_size_class_amended.2.2.2.1 ⟨"Municipal", false, false⟩ 10 50
      [(2015, 30000)] 2015 30000 rfl (by decide) (by decide)
    rw [h]; decide
  · exact c6_size_class_amended.2.2.2.2 ⟨"Municipal", true, false⟩
      [(2015, 5)] 2015 5 rfl rfl (by decide) (by decide) (by decide)

/-- C8 counterexample: two employers with a taxonomy and a population
reading whose `size_class` is nevertheless None — a non-special
municipality whose recorded population is 0 (falsy in Python), and an
employer whose taxonomy entity type has no entry in the bounds table. -/
theorem c8_size_class_total_counterexample :
    size_class (some ⟨"Municipal", false, false⟩) [(2015, 0)] 2015 = none ∧
    size_class (some ⟨"School District", false, false⟩) [(2015, 30000)] 2015 = none := by
  constructor
  · decide
  · decide

/-- C8 (amended): for every employer with at least one population
reading, a taxonomy whose (entity_type, is_special) pair has an entry
in the bounds table, and a resolved population different from 0,
`size_class` returns one of the three classes (it is never None). -/
theorem c8_size_class_total_amended (t : EmployerTaxonomy) (lo hi : Int)
    (readings : List (Int × Int)) (y : Int)
    (hne : readings ≠ [])
    (hcl : class_lookup (t.entity_type, is_special t) = some (lo, hi))
    (h0 : get_population readings y ≠ some 0) :
    ∃ c, size_class (some t) readings y = some c := by
  obtain ⟨p, hp⟩ := get_population_isSome readings y hne
  have hp0 : p ≠ 0 := by
    intro h
    exact h0 (h ▸ hp)
  simp only [size_class, hcl, hp]
  rw [if_neg hp0]
  split_ifs
  · exact ⟨SizeClass.Large, rfl⟩
  · exact ⟨SizeClass.Medium, rfl⟩
  · exact ⟨SizeClass.Small, rfl⟩

/-- C8 witness: the amended totality statement applied to a non-special
municipality with one nonzero reading. -/
theorem c8_size_class_total_witness :
    ∃ c, size_class (some ⟨"Municipal", false, false⟩) [(2015, 30000)] 2015 = some c :=
  c8_size_class_total_amended ⟨"Municipal", false, false⟩ 10 50 [(2015, 30000)] 2015
    (by decide) (by decide) (by decide)

/-- C9: `size_class` is monotonic in the resolved population — for one
taxonomy (hence one pair of bounds) and two readings lists whose
resolved populations are p1 <= p2, whenever both classify, the class of
the smaller population is no larger than the class of the bigger one in
the order Small < Medium < Large. -/
theorem c9_size_class_monotone (t : EmployerTaxonomy) (r1 r2 : List (Int × Int))
    (y p1 p2 : Int) (c1 c2 : SizeClass)
    (hp1 : get_population r1 y = some p1) (hp2 : get_population r2 y = some p2)
    (hle : p1 ≤ p2)
    (h1 : size_class (some t) r1 y = some c1)
    (h2 : size_class (some t) r2 y = some c2) :
    c1.rank ≤ c2.rank := by
  cases hcl : class_lookup (t.entity_type, is_special t) with
  | none =>
    simp only [size_class, hcl] at h1
    exact absurd h1 (by simp)
  | some b =>
    obtain ⟨lo, hi⟩ := b
    simp only [size_class, hcl, hp1] at h1
    simp only [size_class, hcl, hp2] at h2
    split_ifs at h1 h2 <;>
      first
        | exact Option.noConfusion h1
        | exact Option.noConfusion h2
        | (cases Option.some.inj h1; cases Option.some.inj h2;
           first
             | decide
             | (exfalso; omega))

/-- C9 witness: monotonicity applied to populations 20000 (Medium) and
60000 (Large) for a non-special municipality. -/
theorem c9_size_class_monotone_witness :
    SizeClass.rank SizeClass.Medium ≤ SizeClass.rank SizeClass.Large :=
  c9_size_class_monotone ⟨"Municipal", false, false⟩ [(2015, 20000)] [(2015, 60000)]
    2015 20000 60000 SizeClass.Medium SizeClass.Large
    (by decide) (by decide) (by decide) (by decide) (by decide)

/-- C3: for a salary whose employer `e` is a classified unit
(taxonomy set, no parent), a row is in the `_like_unit_percentile`
comparison population for a reporting year exactly when it is a salary
of that year attached to a job whose position's employer maps, under
the key (own id when the employer has no parent, else its parent id),
to an employer carrying the same taxonomy id as `e` — so peer units'
own department salaries are collapsed into the unit level and
included. -/
theorem c3_like_unit_population_characterisation (db : DB) (e : EmployerRow)
    (t year : Nat) (r : Nat × Int)
    (_hunit : e.parent_id = none) (htax : e.taxonomy_id = some t) :
    r ∈ likeUnitPopulation db t year ↔
      ∃ j ∈ db.jobs, ∃ s ∈ db.salaries, ∃ p ∈ db.positions,
        ∃ e0 ∈ db.employers, ∃ e1 ∈ db.employers, ∃ f ∈ db.files,
          s.job_id = j.id ∧ j.position_id = p.id ∧ p.employer_id = e0.id ∧
          e0.parent_id.getD e0.id = e1.id ∧ e1.taxonomy_id = e.taxonomy_id ∧
          f.1 = s.vintage_id ∧ f.2 = year ∧ r = (j.person_id, totalPay s) := by
  rw [htax]
  simp only [likeUnitPopulation, List.mem_flatMap, List.mem_filterMap,
    Option.ite_none_right_eq_some, Option.some.injEq]
  constructor
  · rintro ⟨j, hj, s, hs, p, hp, e0, he0, e1, he1, f, hf, ⟨h1, h2, h3, h4, h5, h6, h7⟩, h8⟩
    exact ⟨j, hj, s, hs, p, hp, e0, he0, e1, he1, f, hf, h1, h2, h3, h4, h5, h6, h7, h8.symm⟩
  · rintro ⟨j, hj, s, hs, p, hp, e0, he0, e1, he1, f, hf, h1, h2, h3, h4, h5, h6, h7, h8⟩
    exact ⟨j, hj, s, hs, p, hp, e0, he0, e1, he1, f, hf, ⟨h1, h2, h3, h4, h5, h6, h7⟩, h8.symm⟩

/-- C3 witness: seen from unit 1 (taxonomy 7), the salary paid by
department 3 of peer unit 2 is in the unit-level comparison
population. -/
theorem c3_like_unit_population_witness :
    ((12 : Nat), (50000 : Int)) ∈ likeUnitPopulation unitPeerDB 7 2017 :=
  (c3_like_unit_population_characterisation unitPeerDB ⟨1, none, some 7, none⟩ 7 2017
      (12, 50000) rfl rfl).mpr
    ⟨⟨33, 12, 23⟩, by decide, ⟨43, 33, some 50000, none, 5⟩, by decide,
     ⟨23, 3⟩, by decide, ⟨3, some 2, none, some 9⟩, by decide,
     ⟨2, none, some 7, none⟩, by decide, (5, 2017), by decide,
     rfl, rfl, rfl, rfl, rfl, rfl, rfl, rfl⟩

/-- C4: for a salary whose employer `e` is a department with universe
set whose parent unit `pu` has a taxonomy, a row is in the
`_like_department_percentile` comparison population for a reporting
year exactly when it is a salary of that year attached to a job at a
department that shares `e`'s universe and whose parent unit carries the
same taxonomy as `pu`. -/
theorem c4_like_department_population_characterisation (db : DB) (e pu : EmployerRow)
    (t u year : Nat) (r : Nat × Int)
    (_hdept : e.parent_id = some pu.id) (hu : e.universe_id = some u)
    (htax : pu.taxonomy_id = some t) :
    r ∈ likeDepartmentPopulation db t u year ↔
      ∃ j ∈ db.jobs, ∃ s ∈ db.salaries, ∃ p ∈ db.positions,
        ∃ unit ∈ db.employers, ∃ dept ∈ db.employers, ∃ f ∈ db.files,
          s.job_id = j.id ∧ j.position_id = p.id ∧
          dept.parent_id = some unit.id ∧ unit.taxonomy_id = pu.taxonomy_id ∧
          p.employer_id = dept.id ∧ dept.universe_id = e.universe_id ∧
          f.1 = s.vintage_id ∧ f.2 = year ∧ r = (j.person_id, totalPay s) := by
  rw [htax, hu]
  simp only [likeDepartmentPopulation, List.mem_flatMap, List.mem_filterMap,
    Option.ite_none_right_eq_some, Option.some.injEq]
  constructor
  · rintro ⟨j, hj, s, hs, p, hp, un, hun, d, hd, f, hf, ⟨h1, h2, h3, h4, h5, h6, h7, h8⟩, h9⟩
    exact ⟨j, hj, s, hs, p, hp, un, hun, d, hd, f, hf, h1, h2, h3, h4, h5, h6, h7, h8, h9.symm⟩
  · rintro ⟨j, hj, s, hs, p, hp, un, hun, d, hd, f, hf, h1, h2, h3, h4, h5, h6, h7, h8, h9⟩
    exact ⟨j, hj, s, hs, p, hp, un, hun, d, hd, f, hf, ⟨h1, h2, h3, h4, h5, h6, h7, h8⟩, h9.symm⟩

/-- C4 witness: seen from department 3 (universe 9, parent unit 1 with
taxonomy 7), the salary paid by department 4 of unit 2 — same universe,
parent of the same taxonomy — is in the comparison population. -/
theorem c4_like_department_population_witness :
    ((13 : Nat), (60000 : Int)) ∈ likeDepartmentPopulation deptPeerDB 7 9 2017 :=
  (c4_like_department_population_characterisation deptPeerDB
      ⟨3, some 1, none, some 9⟩ ⟨1, none, some 7, none⟩ 7 9 2017 (13, 60000)
      rfl rfl rfl).mpr
    ⟨⟨34, 13, 24⟩, by decide, ⟨44, 34, some 60000, none, 5⟩, by decide,
     ⟨24, 4⟩, by decide, ⟨2, none, some 7, none⟩, by decide,
     ⟨4, some 2, none, some 9⟩, by decide, (5, 2017), by decide,
     rfl, rfl, rfl, rfl, rfl, rfl, rfl, rfl, rfl⟩

/-- C5: `like_employer_percentile` returns the `'N/A'` sentinel when
the salary's employer is unclassified, and returns the distinct Python
`None` ("no data") sentinel when the employer is a classified
department whose parent unit is unclassified; both paths return
normally (no exception: the result is `some` of a sentinel) and the
sentinels differ from each other and from every percentile value, in
particular from 0. -/
theorem c5_like_employer_percentile_sentinels :
    (∀ (db : DB) (s : SalaryRow) (j : JobRow) (p : PositionRow) (e : EmployerRow),
      db.jobs.find? (fun x => decide (x.id = s.job_id)) = some j →
      db.positions.find? (fun x => decide (x.id = j.position_id)) = some p →
      findEmployer db p.employer_id = some e →
      is_unclassified e = true →
      like_employer_percentile db s = some LikeResult.na) ∧
    (∀ (db : DB) (s : SalaryRow) (j : JobRow) (p : PositionRow) (e pe : EmployerRow)
        (pr : Nat),
      db.jobs.find? (fun x => decide (x.id = s.job_id)) = some j →
      db.positions.find? (fun x => decide (x.id = j.position_id)) = some p →
      findEmployer db p.employer_id = some e →
      is_unclassified e = false →
      e.parent_id = some pr →
      findEmployer db pr = some pe →
      is_unclassified pe = true →
      like_employer_percentile db s = some LikeResult.noData) ∧
    (LikeResult.na ≠ LikeResult.noData ∧
      ∀ q : ℚ, LikeResult.na ≠ LikeResult.value q ∧
        LikeResult.noData ≠ LikeResult.value q) := by
  refine ⟨?_, ?_, ?_, ?_⟩
  · intro db s j p e hj hp he hun
    simp [like_employer_percentile, hj, hp, he, hun]
  · intro db s j p e pe pr hj hp he hun hpr hpe hpeun
    have hdep : is_department e = true := by simp [is_department, hpr]
    simp [like_employer_percentile, like_department_percentile,
      hj, hp, he, hun, hdep, hpr, hpe, hpeun]
  · intro h
    exact LikeResult.noConfusion h
  · intro q
    exact ⟨fun h => LikeResult.noConfusion h, fun h => LikeResult.noConfusion h⟩

/-- C5 witness: the `'N/A'` sentinel on the unclassified unit and the
`None` sentinel on the department with an unclassified parent, at
concrete salaries. -/
theorem c5_like_employer_percentile_sentinels_witness :
    like_employer_percentile unclassifiedUnitDB ⟨41, 31, some 10000, none, 5⟩ =
      some LikeResult.na ∧
    like_employer_percentile orphanDeptDB ⟨42, 32, some 10000, none, 5⟩ =
      some LikeResult.noData :=
  ⟨c5_like_employer_percentile_sentinels.1 unclassifiedUnitDB ⟨41, 31, some 10000, none, 5⟩
      ⟨31, 11, 21⟩ ⟨21, 1⟩ ⟨1, none, none, none⟩ rfl rfl rfl rfl,
   c5_like_employer_percentile_sentinels.2.1 orphanDeptDB ⟨42, 32, some 10000, none, 5⟩
      ⟨32, 12, 22⟩ ⟨22, 2⟩ ⟨2, some 1, none, some 9⟩ ⟨1, none, none, none⟩ 1
      rfl rfl rfl rfl rfl rfl rfl⟩

/-- C7: when the resolved comparison population has zero rows, the
percentile computation yields no value at all (the Python
`cursor.fetchone()` comes back `None` and `result[0]` raises), so it
never divides by zero and never produces a misleading 0 or 100; this
holds for the own-employer population and for the like-unit peer
population. -/
theorem c7_empty_population_fails :
    (∀ (db : DB) (empId pid year : Nat), employerPopulation db empId year = [] →
      employer_percentile db empId pid year = none ∧
      employer_percentile db empId pid year ≠ some 0 ∧
      employer_percentile db empId pid year ≠ some 100) ∧
    (∀ (db : DB) (t pid year : Nat), likeUnitPopulation db t year = [] →
      rankIn (likeUnitPopulation db t year) pid = none ∧
      rankIn (likeUnitPopulation db t year) pid ≠ some 0 ∧
      rankIn (likeUnitPopulation db t year) pid ≠ some 100) := by
  constructor
  · intro db empId pid year h
    have hnone : employer_percentile db empId pid year = none := by
      unfold employer_percentile
      rw [h]
      rfl
    exact ⟨hnone, by rw [hnone]; exact Option.noConfusion,
      by rw [hnone]; exact Option.noConfusion⟩
  · intro db t pid year h
    have hnone : rankIn (likeUnitPopulation db t year) pid = none := by
      rw [h]
      rfl
    exact ⟨hnone, by rw [hnone]; exact Option.noConfusion,
      by rw [hnone]; exact Option.noConfusion⟩

/-- C7 witness: both empty-population paths on the empty database. -/
theorem c7_empty_population_fails_witness :
    employer_percentile emptyDB 1 11 2017 = none ∧
    rankIn (likeUnitPopulation emptyDB 7 2017) 11 = none :=
  ⟨(c7_empty_population_fails.1 emptyDB 1 11 2017 rfl).1,
   (c7_empty_population_fails.2 emptyDB 7 11 2017 rfl).1⟩

/-- C10: `employer_percentile` keys its result lookup on the person id,
not the salary id — two distinct salary rows that resolve to the same
person, the same employer and the same reporting year yield the same
percentile (that of whichever of the person's rows the query returns
first), so the result is a function of (person, employer, year). -/
theorem c10_percentile_keyed_by_person (db : DB) (s1 s2 : SalaryRow)
    (j1 j2 : JobRow) (p1 p2 : PositionRow) (e1 e2 : EmployerRow) (y1 y2 : Nat)
    (_hne : s1.id ≠ s2.id)
    (hj1 : db.jobs.find? (fun x => decide (x.id = s1.job_id)) = some j1)
    (hp1 : db.positions.find? (fun x => decide (x.id = j1.position_id)) = some p1)
    (he1 : findEmployer db p1.employer_id = some e1)
    (hy1 : salary_reporting_year db s1 = some y1)
    (hj2 : db.jobs.find? (fun x => decide (x.id = s2.job_id)) = some j2)
    (hp2 : db.positions.find? (fun x => decide (x.id = j2.position_id)) = some p2)
    (he2 : findEmployer db p2.employer_id = some e2)
    (hy2 : salary_reporting_year db s2 = some y2)
    (hperson : j1.person_id = j2.person_id)
    (hemp : e1.id = e2.id)
    (hyear : y1 = y2) :
    employer_percentile_of db s1 = employer_percentile_of db s2 := by
  simp [employer_percentile_of, hj1, hp1, he1, hy1, hj2, hp2, he2, hy2,
    hperson, hemp, hyear]

/-- C10 witness: two distinct salary rows of person 11 — 20000 and
80000 in the same year at the same employer — receive the same
percentile. -/
theorem c10_percentile_keyed_by_person_witness :
    (⟨41, 31, some 20000, none, 5⟩ : SalaryRow).id ≠
      (⟨42, 31, some 80000, none, 5⟩ : SalaryRow).id ∧
    employer_percentile_of twoSalaryDB ⟨41, 31, some 20000, none, 5⟩ =
      employer_percentile_of twoSalaryDB ⟨42, 31, some 80000, none, 5⟩ :=
  ⟨by decide,
   c10_percentile_keyed_by_person twoSalaryDB _ _ ⟨31, 11, 21⟩ ⟨31, 11, 21⟩
     ⟨21, 1⟩ ⟨21, 1⟩ ⟨1, none, some 7, none⟩ ⟨1, none, some 7, none⟩ 2017 2017
     (by decide) rfl rfl rfl rfl rfl rfl rfl rfl rfl rfl rfl⟩
